import Mathlib

/-!
# Verification of the AllTracks Track-D liveness detection engine

Shallow embedding of `track_d_backend/liveness_detector.py`,
`track_d_backend/attack_detector.py` and `track_d_backend/config.py`.

Modelling conventions:
* Machine floats are modelled by `ℚ`; every arithmetic step of the source is
  rational, so the translation is exact.
* A grayscale image is a list of pixel intensities (`List ℕ`, values 0..255).
  Quantities the source obtains from OpenCV/NumPy primitives that are not
  rational functions of the pixel list (Laplacian variance, Sobel gradient
  standard deviation, per-channel variances, Canny edge densities, RGB
  correlation, saturation standard deviation, FFT peak-to-mean magnitude,
  patch variance-of-variances) are carried as measured fields of the `Frame`
  record; the thresholding and scoring arithmetic applied to them is
  translated from the source verbatim.
* `np.corrcoef(x, y)[0, 1] > c` (with `c > 0`) is embedded by the exact
  algebraic equivalent `cov > 0 ∧ cov² > c² · varx · vary`; when either
  variance is zero NumPy yields NaN and the comparison is false, which the
  embedding reproduces (`cov = 0` in that case).
* Python `deque(maxlen = n)` becomes a list with newest element last and
  eviction from the front.
-/

namespace AllTracks

/-! ## Configuration constants (`config.py`) -/

namespace Config

def MOTION_FRAMES : ℕ := 10

def MOTION_THRESHOLD_MIN : ℚ := 500

def MOTION_THRESHOLD_OPTIMAL : ℚ := 2000

def MOTION_PIXEL_THRESHOLD : ℕ := 15

def TEXTURE_VARIANCE_MIN : ℚ := 80

def TEXTURE_VARIANCE_OPTIMAL : ℚ := 150

def HF_CONTENT_MIN : ℚ := 150

def HF_CONTENT_OPTIMAL : ℚ := 300

def LBP_DIVERSITY_MIN : ℚ := 25

def CONSISTENCY_THRESHOLD : ℚ := 15

def FRAME_JUMP_THRESHOLD : ℚ := 40

def CONSISTENCY_WINDOW : ℕ := 5

def EDGE_DENSITY_MIN : ℚ := 0.15

def EDGE_DENSITY_MAX : ℚ := 0.35

def COLOR_VARIANCE_MIN : ℚ := 200

def COLOR_VARIANCE_OPTIMAL : ℚ := 500

def CHANNEL_DIVERSITY_MIN : ℚ := 5

def CHANNEL_DIVERSITY_OPTIMAL : ℚ := 20

def FFT_PATTERN_THRESHOLD : ℚ := 50

def LIVENESS_THRESHOLD : ℚ := 0.70

def SCREEN_VETO_ENABLED : Bool := true

def SCREEN_VETO_THRESHOLD : ℚ := 0.50

def SCREEN_BRIGHTNESS_UNIFORMITY : ℚ := 15

def SCREEN_RGB_CORRELATION : ℚ := 0.85

def PHOTO_ATTACK_TEXTURE_MAX : ℚ := 0.5

def VIDEO_REPLAY_JUMP_MIN : ℚ := 35

def VIDEO_REPLAY_REPEAT_THRESHOLD : ℚ := 0.75

def MIN_FRAMES_FOR_DECISION : ℕ := 15

/-- The six aggregation weights of `config.WEIGHTS`, in insertion order. -/
def weight_motion : ℚ := 0.30

def weight_texture : ℚ := 0.20

def weight_consistency : ℚ := 0.10

def weight_edge_density : ℚ := 0.10

def weight_color_variance : ℚ := 0.20

def weight_pattern_detection : ℚ := 0.10

/-- `sum(WEIGHTS.values())`, checked by `config.validate_config`. -/
def weightsSum : ℚ :=
  weight_motion + weight_texture + weight_consistency + weight_edge_density +
    weight_color_variance + weight_pattern_detection

def instr_initial : String := "Show your finger to camera"

def instr_collecting : String := "Collecting frames..."

def instr_low_motion : String := "Please move your finger slightly"

def instr_too_much_motion : String := "Keep your finger more steady"

def instr_good_motion : String := "Good! Continue..."

def instr_analyzing : String := "Analyzing liveness..."

def instr_live_detected : String := "LIVE FINGER DETECTED"

def instr_spoof_detected : String := "SPOOF DETECTED"

def instr_photo_attack : String := "Photo/Print detected - Use real finger"

def instr_screen_attack : String := "Screen detected - Use real finger"

def instr_video_replay : String := "Video replay detected - Use real finger"

def instr_fake_finger : String := "Fake finger detected - Use real finger"

end Config

/-! ## Basic list helpers (deque, NumPy reductions) -/

/-- `deque(maxlen = n)` push: append on the right, evict from the left. -/
def pushBounded (n : ℕ) (x : α) (l : List α) : List α :=
  let l2 := l ++ [x]
  if n < l2.length then l2.drop (l2.length - n) else l2

/-- `np.mean` of a list of rationals (0 on the empty list). -/
def listMean (l : List ℚ) : ℚ := l.sum / (l.length : ℚ)

/-- `np.max` of a list of rationals, 0 on the empty list. -/
def listMaxD (l : List ℚ) : ℚ :=
  match l with
  | [] => 0
  | x :: xs => xs.foldl max x

/-- Absolute difference of two pixel intensities (`cv2.absdiff`). -/
def natAbsDiff (a b : ℕ) : ℕ := max a b - min a b

/-- `min(1.0, max(0.0, x))`. -/
def clamp01 (x : ℚ) : ℚ := min 1 (max 0 x)

/-- Consecutive absolute differences `|l[i] - l[i-1]|` of a list. -/
def consecDiffs (l : List ℚ) : List ℚ :=
  (l.zip l.tail).map (fun p => |p.2 - p.1|)

/-- `np.var` of a grayscale pixel list (mean of squares minus squared mean). -/
def pixelVar (g : List ℕ) : ℚ :=
  if g.length = 0 then 0
  else ((g.map (fun x => ((x : ℚ)) ^ 2)).sum / (g.length : ℚ)) -
    ((g.sum : ℚ) / (g.length : ℚ)) ^ 2

/-- `np.mean(gray)`: average brightness of a grayscale pixel list. -/
def brightnessOf (g : List ℕ) : ℚ := (g.sum : ℚ) / (g.length : ℚ)

/-- Exact embedding of `np.corrcoef(xs, ys)[0, 1] > c` for `c > 0`:
the correlation exceeds `c` iff the covariance is positive and its square
exceeds `c² · varx · vary`; a constant list gives NaN in NumPy, whose
comparison is false, matching `cov = 0` here. -/
def corrGT (xs ys : List ℚ) (c : ℚ) : Bool :=
  let n : ℚ := (xs.length : ℚ)
  let mx := xs.sum / n
  let my := ys.sum / n
  let cov : ℚ := ((xs.zip ys).map (fun p => (p.1 - mx) * (p.2 - my))).sum
  let vx : ℚ := (xs.map (fun x => (x - mx) ^ 2)).sum
  let vy : ℚ := (ys.map (fun y => (y - my) ^ 2)).sum
  decide ((0 : ℚ) < cov ∧ c * c * (vx * vy) < cov * cov)

/-! ## Data model -/

/-- A grayscale image: its pixel intensities. -/
def GrayFrame : Type := List ℕ

instance : DecidableEq GrayFrame := by
  unfold GrayFrame
  infer_instance

instance : Inhabited GrayFrame := ⟨([] : List ℕ)⟩

/-- One captured camera frame. `gray` is the `cv2.cvtColor(frame, BGR2GRAY)`
pixel list; the remaining fields are the OpenCV/NumPy measurements the
detectors take of this frame (see the module docstring). -/
structure Frame where
  gray : List ℕ
  hf_energy : ℚ
  grad_diversity : ℚ
  var_b : ℚ
  var_g : ℚ
  var_r : ℚ
  bg_diff : ℚ
  gr_diff : ℚ
  rb_diff : ℚ
  fft_peak : ℚ
  edge_density : ℚ
  screen_edge_density : ℚ
  brightness_std : ℚ
  rgb_corr : ℚ
  bright_frac : ℚ
  sat_std : ℚ
  has_skin_features : Bool
  deriving DecidableEq

/-- The six extractor scores (`LivenessDetector.scores`). -/
structure ScoreSet where
  motion : ℚ
  texture : ℚ
  consistency : ℚ
  edge_density : ℚ
  color_variance : ℚ
  pattern_detection : ℚ
  deriving DecidableEq

def zeroScores : ScoreSet :=
  { motion := 0, texture := 0, consistency := 0, edge_density := 0,
    color_variance := 0, pattern_detection := 0 }

/-- The four attack labels (keys of `AttackDetector.attacks`). -/
inductive AttackName where
  | photo_attack
  | screen_attack
  | video_replay
  | fake_finger
  deriving DecidableEq

/-- State of `AttackDetector`. -/
structure AttackState where
  photo_attack : Bool
  screen_attack : Bool
  video_replay : Bool
  fake_finger : Bool
  conf_photo : ℚ
  conf_screen : ℚ
  conf_video : ℚ
  conf_fake : ℚ
  brightness_history : List ℚ
  pattern_history : List ℚ
  deriving DecidableEq

/-- `AttackDetector.__init__`, equivalently `AttackDetector.reset`. -/
def initAttackState : AttackState :=
  { photo_attack := false, screen_attack := false, video_replay := false,
    fake_finger := false, conf_photo := 0, conf_screen := 0, conf_video := 0,
    conf_fake := 0, brightness_history := [], pattern_history := [] }

/-- State of `LivenessDetector`. -/
structure LivenessState where
  frame_buffer : List Frame
  gray_buffer : List GrayFrame
  motion_history : List ℚ
  attack : AttackState
  frames_analyzed : ℕ
  is_live : Bool
  confidence : ℚ
  final_decision_made : Bool
  analysis_started : Bool
  scores : ScoreSet
  current_instruction : String
  deriving DecidableEq

/-- `LivenessDetector.__init__`. -/
def initState : LivenessState :=
  { frame_buffer := [], gray_buffer := [], motion_history := [],
    attack := initAttackState, frames_analyzed := 0, is_live := false,
    confidence := 0, final_decision_made := false, analysis_started := false,
    scores := zeroScores, current_instruction := Config.instr_initial }

/-- `LivenessDetector.reset`: clears both frame buffers and the motion
history, resets the attack detector, and assigns every scalar field the same
value it receives in `__init__` (checked field-by-field against the source);
the resulting state is the initial state, whatever the state before. -/
def reset (_s : LivenessState) : LivenessState := initState

/-- Lifecycle/outcome label of a result (`status` string of the source). -/
inductive Status where
  | WAITING
  | ANALYZING
  | LIVE
  | SPOOF
  deriving DecidableEq

/-- The dictionary returned by `LivenessDetector._create_result`. -/
structure AnalysisResult where
  status : Status
  progress : ℚ
  confidence : ℚ
  overall_score : ℚ
  scores : ScoreSet
  instruction : String
  attack_type : Option AttackName
  is_live : Bool
  frames_analyzed : ℕ
  deriving DecidableEq

/-- `LivenessDetector._create_result`: the `confidence`, `scores`,
`is_live` and `frames_analyzed` fields are read from the detector state at
return time. -/
def create_result (s : LivenessState) (status : Status) (progress : ℚ)
    (instruction : String) (overall_score : ℚ)
    (attack_type : Option AttackName) : AnalysisResult :=
  { status := status, progress := progress, confidence := s.confidence,
    overall_score := overall_score, scores := s.scores,
    instruction := instruction, attack_type := attack_type,
    is_live := s.is_live, frames_analyzed := s.frames_analyzed }

/-! ## Signal extractors -/

/-- Motion pixels between two grayscale frames:
`np.sum(cv2.absdiff(prev, curr) > MOTION_PIXEL_THRESHOLD)`. -/
def countMotionPixels (prev curr : List ℕ) : ℕ :=
  (prev.zip curr).countP
    (fun p => decide (Config.MOTION_PIXEL_THRESHOLD < natAbsDiff p.1 p.2))

/-- The `motion_values` list of `_detect_motion`: for
`i in range(1, min(len(gray_buffer), 5))` the motion pixel count between
`gray_buffer[i-1]` and `gray_buffer[i]` (deque index 0 = oldest frame). -/
def motionValues (gb : List GrayFrame) : List ℚ :=
  ((List.range (min gb.length 5)).drop 1).map
    (fun i => ((countMotionPixels (gb.getD (i - 1) []) (gb.getD i []) : ℕ) : ℚ))

/-- The three-zone normalization applied to `avg_motion` in
`_detect_motion`. -/
def normalizeMotion (avg : ℚ) : ℚ :=
  if Config.MOTION_THRESHOLD_OPTIMAL ≤ avg then 1
  else if Config.MOTION_THRESHOLD_MIN ≤ avg then
    0.3 + 0.7 * (avg - Config.MOTION_THRESHOLD_MIN) /
      (Config.MOTION_THRESHOLD_OPTIMAL - Config.MOTION_THRESHOLD_MIN)
  else (avg / Config.MOTION_THRESHOLD_MIN) * 0.3

/-- `avg_motion = np.mean(motion_values)`. -/
def avgMotion (gb : List GrayFrame) : ℚ := listMean (motionValues gb)

/-- `LivenessDetector._detect_motion` (score only; the side effect of
appending `avg_motion` to `motion_history` is performed by the caller). -/
def detect_motion (gb : List GrayFrame) : ℚ :=
  if gb.length < 2 then 0
  else clamp01 (normalizeMotion (avgMotion gb))

/-- `LivenessDetector._analyze_texture`. -/
def analyze_texture (f : Frame) : ℚ :=
  let variance := pixelVar f.gray
  let variance_score :=
    if Config.TEXTURE_VARIANCE_OPTIMAL ≤ variance then 1
    else if Config.TEXTURE_VARIANCE_MIN ≤ variance then
      0.5 + 0.5 * (variance - Config.TEXTURE_VARIANCE_MIN) /
        (Config.TEXTURE_VARIANCE_OPTIMAL - Config.TEXTURE_VARIANCE_MIN)
    else (variance / Config.TEXTURE_VARIANCE_MIN) * 0.5
  let hf_score :=
    if Config.HF_CONTENT_OPTIMAL ≤ f.hf_energy then 1
    else if Config.HF_CONTENT_MIN ≤ f.hf_energy then
      0.5 + 0.5 * (f.hf_energy - Config.HF_CONTENT_MIN) /
        (Config.HF_CONTENT_OPTIMAL - Config.HF_CONTENT_MIN)
    else (f.hf_energy / Config.HF_CONTENT_MIN) * 0.5
  let diversity_score := min 1 (f.grad_diversity / Config.LBP_DIVERSITY_MIN)
  clamp01 (variance_score * 0.4 + hf_score * 0.4 + diversity_score * 0.2)

/-- `LivenessDetector._check_consistency`. -/
def check_consistency (gb : List GrayFrame) : ℚ :=
  if gb.length < Config.CONSISTENCY_WINDOW then 0.5
  else
    let brightness_values :=
      (gb.drop (gb.length - Config.CONSISTENCY_WINDOW)).map brightnessOf
    let differences := consecDiffs brightness_values
    let avg_diff := listMean differences
    let max_diff := listMaxD differences
    if Config.FRAME_JUMP_THRESHOLD < max_diff then 0.2
    else if avg_diff < Config.CONSISTENCY_THRESHOLD then 1
    else max 0 (1 - (avg_diff - Config.CONSISTENCY_THRESHOLD) / 50)

/-- `LivenessDetector._analyze_edge_density`. -/
def analyze_edge_density (f : Frame) : ℚ :=
  if Config.EDGE_DENSITY_MIN ≤ f.edge_density ∧
      f.edge_density ≤ Config.EDGE_DENSITY_MAX then 1
  else if f.edge_density < Config.EDGE_DENSITY_MIN then
    f.edge_density / Config.EDGE_DENSITY_MIN
  else max 0 (1 - (f.edge_density - Config.EDGE_DENSITY_MAX) / 0.3)

/-- `LivenessDetector._analyze_color_variance`. -/
def analyze_color_variance (f : Frame) : ℚ :=
  let total_variance := f.var_b + f.var_g + f.var_r
  let channel_diversity := (f.bg_diff + f.gr_diff + f.rb_diff) / 3
  let variance_score :=
    if Config.COLOR_VARIANCE_OPTIMAL ≤ total_variance then 1
    else if Config.COLOR_VARIANCE_MIN ≤ total_variance then
      0.5 + 0.5 * (total_variance - Config.COLOR_VARIANCE_MIN) /
        (Config.COLOR_VARIANCE_OPTIMAL - Config.COLOR_VARIANCE_MIN)
    else (total_variance / Config.COLOR_VARIANCE_MIN) * 0.5
  let diversity_score :=
    if Config.CHANNEL_DIVERSITY_OPTIMAL ≤ channel_diversity then 1
    else if Config.CHANNEL_DIVERSITY_MIN ≤ channel_diversity then
      0.5 + 0.5 * (channel_diversity - Config.CHANNEL_DIVERSITY_MIN) /
        (Config.CHANNEL_DIVERSITY_OPTIMAL - Config.CHANNEL_DIVERSITY_MIN)
    else (channel_diversity / Config.CHANNEL_DIVERSITY_MIN) * 0.5
  clamp01 (variance_score * 0.6 + diversity_score * 0.4)

/-- `LivenessDetector._detect_patterns` (`f.fft_peak` is the measured
`max_magnitude / (mean_magnitude + 1)`). -/
def detect_patterns (f : Frame) : ℚ :=
  if Config.FFT_PATTERN_THRESHOLD ≤ f.fft_peak then clamp01 0.2
  else clamp01 (1 - (f.fft_peak / Config.FFT_PATTERN_THRESHOLD) * 0.8)

/-- `LivenessDetector._calculate_overall_score`: weighted sum over
`config.WEIGHTS` in insertion order, clamped to `[0, 1]`. -/
def calculate_overall_score (sc : ScoreSet) : ℚ :=
  clamp01 (sc.motion * Config.weight_motion +
    sc.texture * Config.weight_texture +
    sc.consistency * Config.weight_consistency +
    sc.edge_density * Config.weight_edge_density +
    sc.color_variance * Config.weight_color_variance +
    sc.pattern_detection * Config.weight_pattern_detection)

/-! ## Attack classifiers (`attack_detector.py`) -/

/-- `AttackDetector._detect_print_pattern`: the same FFT peak-to-mean
measurement as `_detect_patterns`, compared strictly against the pattern
threshold. -/
def detectPrintPattern (f : Frame) : Bool :=
  decide (Config.FFT_PATTERN_THRESHOLD < f.fft_peak)

/-- `AttackDetector.detect_photo_attack`. -/
def detect_photo_attack (motion_score texture_score : ℚ) (f : Frame)
    (a : AttackState) : AttackState :=
  let confidence :=
    (if motion_score < 0.2 then (0.4 : ℚ) else 0) +
    (if texture_score < Config.PHOTO_ATTACK_TEXTURE_MAX then (0.3 : ℚ) else 0) +
    (if detectPrintPattern f then (0.3 : ℚ) else 0)
  { a with photo_attack := decide ((0.5 : ℚ) ≤ confidence),
           conf_photo := confidence }

/-- `AttackDetector._detect_screen_characteristics`. -/
def detectScreenCharacteristics (f : Frame) : Bool :=
  if f.sat_std < 20 then true else decide ((0.9 : ℚ) < f.rgb_corr)

/-- `AttackDetector.detect_screen_attack`. -/
def detect_screen_attack (color_variance pattern_score : ℚ) (f : Frame)
    (a : AttackState) : AttackState :=
  let confidence :=
    (if color_variance < 0.3 then (0.3 : ℚ) else 0) +
    (if pattern_score < 0.4 then (0.3 : ℚ) else 0) +
    (if detectScreenCharacteristics f then (0.4 : ℚ) else 0)
  { a with screen_attack := decide ((0.5 : ℚ) ≤ confidence),
           conf_screen := confidence }

/-- `AttackDetector._detect_repetition`. -/
def detectRepetition (history : List ℚ) : Bool :=
  if history.length < 15 then false
  else
    let mid := history.length / 2
    let first_half := history.take mid
    let second_half := (history.drop mid).take mid
    if first_half.length ≠ second_half.length then false
    else corrGT first_half second_half Config.VIDEO_REPLAY_REPEAT_THRESHOLD

/-- `AttackDetector.detect_video_replay`: appends the current frame
brightness to the bounded history, then accumulates the three indicators. -/
def detect_video_replay (consistency_score brightness : ℚ)
    (a : AttackState) : AttackState :=
  let hist := pushBounded 20 brightness a.brightness_history
  let jump_conf :=
    if 10 ≤ hist.length then
      let jumps := consecDiffs hist
      let max_jump := listMaxD jumps
      (if Config.VIDEO_REPLAY_JUMP_MIN < max_jump then (0.4 : ℚ) else 0) +
        (if detectRepetition hist then (0.4 : ℚ) else 0)
    else 0
  let confidence := jump_conf + (if consistency_score < 0.4 then (0.2 : ℚ) else 0)
  { a with video_replay := decide ((0.5 : ℚ) ≤ confidence),
           conf_video := confidence, brightness_history := hist }

/-- `AttackDetector.detect_fake_finger` (`edge_density` here is the edge
density score in `[0, 1]`, as passed by `analyze_frame`). -/
def detect_fake_finger (edge_density texture_score : ℚ) (f : Frame)
    (a : AttackState) : AttackState :=
  let confidence :=
    (if edge_density < 0.3 ∨ 0.8 < edge_density then (0.4 : ℚ) else 0) +
    (if texture_score < 0.4 then (0.3 : ℚ) else 0) +
    (if f.has_skin_features then 0 else (0.3 : ℚ))
  { a with fake_finger := decide ((0.5 : ℚ) ≤ confidence),
           conf_fake := confidence }

/-- `AttackDetector.get_primary_attack`: if no attack flag is set, none;
otherwise the first attack (dict insertion order: photo, screen, video,
fake) of maximal confidence, reported only when that confidence is ≥ 0.5. -/
def get_primary_attack (a : AttackState) : Option AttackName × ℚ :=
  if !(a.photo_attack || a.screen_attack || a.video_replay || a.fake_finger)
  then (none, 0)
  else
    let cands : List (AttackName × ℚ) :=
      [(AttackName.photo_attack, a.conf_photo),
       (AttackName.screen_attack, a.conf_screen),
       (AttackName.video_replay, a.conf_video),
       (AttackName.fake_finger, a.conf_fake)]
    let best := cands.foldl (fun b c => if b.2 < c.2 then c else b)
      (AttackName.photo_attack, a.conf_photo)
    if (0.5 : ℚ) ≤ best.2 then (some best.1, best.2) else (none, 0)

/-! ## Liveness decision engine (`liveness_detector.py`) -/

/-- `LivenessDetector._get_attack_type`. -/
def get_attack_type (s : LivenessState) : Option AttackName :=
  if s.is_live then none else (get_primary_attack s.attack).1

/-- The five indicator counts of
`LivenessDetector._comprehensive_screen_check`. -/
def screenIndicatorCount (f : Frame) (color_score : ℚ) : ℕ :=
  (if color_score < Config.SCREEN_VETO_THRESHOLD then 1 else 0) +
  (if f.brightness_std < Config.SCREEN_BRIGHTNESS_UNIFORMITY then 1 else 0) +
  (if Config.SCREEN_RGB_CORRELATION < f.rgb_corr then 1 else 0) +
  (if f.screen_edge_density < 0.05 ∨ 0.25 < f.screen_edge_density then 1 else 0) +
  (if 0.02 < f.bright_frac then 1 else 0)

/-- `LivenessDetector._comprehensive_screen_check`. -/
def comprehensive_screen_check (f : Frame) (color_score : ℚ) : Bool :=
  decide (3 ≤ screenIndicatorCount f color_score)

/-- Instruction text for a primary attack
(`config.INSTRUCTIONS.get(primary_attack, ...)`). -/
def instructionFor (a : AttackName) : String :=
  match a with
  | AttackName.photo_attack => Config.instr_photo_attack
  | AttackName.screen_attack => Config.instr_screen_attack
  | AttackName.video_replay => Config.instr_video_replay
  | AttackName.fake_finger => Config.instr_fake_finger

/-- `LivenessDetector._get_dynamic_instruction` (the motion history already
contains this frame's average motion when it is called). -/
def get_dynamic_instruction (s : LivenessState)
    (overall_score motion_score : ℚ) : String :=
  let avg_motion := if s.motion_history.isEmpty then 0 else listMean s.motion_history
  if avg_motion < Config.MOTION_THRESHOLD_MIN * 0.3 then Config.instr_low_motion
  else if Config.MOTION_THRESHOLD_OPTIMAL * 1.5 < avg_motion then
    Config.instr_too_much_motion
  else if (0.6 : ℚ) ≤ motion_score then Config.instr_good_motion
  else
    Config.instr_analyzing ++ " " ++ toString (overall_score * 100).floor ++ "%"

/-- The six extractor scores computed on one analyzed frame (steps 1-6 of
`analyze_frame`), from the post-push grayscale buffer and the frame. -/
def scoresOf (gb : List GrayFrame) (f : Frame) : ScoreSet :=
  { motion := detect_motion gb,
    texture := analyze_texture f,
    consistency := check_consistency gb,
    edge_density := analyze_edge_density f,
    color_variance := analyze_color_variance f,
    pattern_detection := detect_patterns f }

/-- The four classifier calls of `analyze_frame`, in source order. -/
def runAttackDetectors (a : AttackState) (sc : ScoreSet) (f : Frame) :
    AttackState :=
  let a1 := detect_photo_attack sc.motion sc.texture f a
  let a2 := detect_screen_attack sc.color_variance sc.pattern_detection f a1
  let a3 := detect_video_replay sc.consistency (brightnessOf f.gray) a2
  detect_fake_finger sc.edge_density sc.texture f a3

/-- The body of `analyze_frame` once a finger is detected and no terminal
decision has been made (everything from the analysis-start bookkeeping on). -/
def analyzeFrameActive (s : LivenessState) (f : Frame) :
    AnalysisResult × LivenessState :=
  let s0 := if !s.analysis_started then
      { s with analysis_started := true, frames_analyzed := 0 }
    else s
  let s1 := { s0 with frames_analyzed := s0.frames_analyzed + 1 }
  let s2 := { s1 with
      frame_buffer := pushBounded Config.MOTION_FRAMES f s1.frame_buffer,
      gray_buffer := pushBounded Config.MOTION_FRAMES f.gray s1.gray_buffer }
  let progress := min 100
    ((s2.frames_analyzed : ℚ) / (Config.MIN_FRAMES_FOR_DECISION : ℚ) * 100)
  if s2.frame_buffer.length < 3 then
    (create_result s2 Status.ANALYZING progress Config.instr_collecting 0 none,
      s2)
  else
    let sc := scoresOf s2.gray_buffer f
    let mh := if s2.gray_buffer.length < 2 then s2.motion_history
      else pushBounded 20 (avgMotion s2.gray_buffer) s2.motion_history
    let s3 := { s2 with scores := sc, motion_history := mh }
    let overall_score := calculate_overall_score sc
    let a4 := runAttackDetectors s2.attack sc f
    let primary := get_primary_attack a4
    if !s3.final_decision_made ∧
        Config.MIN_FRAMES_FOR_DECISION ≤ s3.frames_analyzed then
      if comprehensive_screen_check f sc.color_variance then
        let s5 := { s3 with
          is_live := false
          confidence := 0.3
          final_decision_made := true
          attack := { a4 with screen_attack := true }
          current_instruction := Config.instr_screen_attack }
        (create_result s5 Status.SPOOF progress Config.instr_screen_attack
          overall_score primary.1, s5)
      else if Config.SCREEN_VETO_ENABLED = true ∧
          sc.color_variance < Config.SCREEN_VETO_THRESHOLD then
        let s5 := { s3 with
          is_live := false
          confidence := sc.color_variance
          final_decision_made := true
          attack := { a4 with screen_attack := true }
          current_instruction := Config.instr_screen_attack }
        (create_result s5 Status.SPOOF progress Config.instr_screen_attack
          overall_score primary.1, s5)
      else
        let live := decide (Config.LIVENESS_THRESHOLD ≤ overall_score)
        let instruction :=
          if live then Config.instr_live_detected
          else match primary.1 with
            | some atk => instructionFor atk
            | none => Config.instr_spoof_detected
        let s5 := { s3 with
          is_live := live
          confidence := overall_score
          final_decision_made := true
          attack := a4
          current_instruction := instruction }
        (create_result s5 (if live then Status.LIVE else Status.SPOOF)
          progress instruction overall_score primary.1, s5)
    else
      let instruction := get_dynamic_instruction s3 overall_score sc.motion
      let s5 := { s3 with attack := a4, current_instruction := instruction }
      (create_result s5 Status.ANALYZING progress instruction overall_score
        primary.1, s5)

/-- `LivenessDetector.analyze_frame`: returns the result dictionary and the
detector state after the call. -/
def analyze_frame (s : LivenessState) (f : Frame) (finger_detected : Bool) :
    AnalysisResult × LivenessState :=
  if s.final_decision_made then
    (create_result s (if s.is_live then Status.LIVE else Status.SPOOF) 100
      s.current_instruction s.confidence (get_attack_type s), s)
  else if !finger_detected then
    let s1 := if s.analysis_started && !s.final_decision_made then reset s else s
    (create_result s1 Status.WAITING 0 "Show your index finger to camera" 0
      none, s1)
  else analyzeFrameActive s f

/-! ## Concrete frames and sessions used by witnesses and counterexamples -/

/-- A constant 2×2 frame whose measured features put the color-variance
score at 2/5 (below the veto threshold but above the screen classifier's
0.3 cut), with uniform brightness and out-of-band sharp-edge density, so
exactly three of the five comprehensive screen indicators fire while no
attack classifier reaches confidence 0.5. -/
def cexFrame : Frame :=
  { gray := [100, 100, 100, 100]
    hf_energy := 300
    grad_diversity := 25
    var_b := 40
    var_g := 30
    var_r := 30
    bg_diff := 35/4
    gr_diff := 35/4
    rb_diff := 35/4
    fft_peak := 25
    edge_density := 0.075
    screen_edge_density := 0.3
    brightness_std := 0
    rgb_corr := 0.5
    bright_frac := 0
    sat_std := 30
    has_skin_features := true }

/-- Feed a list of (frame, finger_detected) inputs through the detector. -/
def runSteps (s : LivenessState) (l : List (Frame × Bool)) : LivenessState :=
  l.foldl (fun st p => (analyze_frame st p.1 p.2).2) s

/-- Detector state after `n` calls of `analyze_frame` on `cexFrame` with the
finger present, starting from a fresh detector. -/
def cexSession (n : ℕ) : LivenessState :=
  runSteps initState (List.replicate n (cexFrame, true))

/-- A frame differing from `cexFrame` in its measured Laplacian variance,
so that its texture score (0.2) differs from `cexFrame`'s (0.6). -/
def cexFrame2 : Frame := { cexFrame with hf_energy := 0 }

/-- The claim's reading of the decision-step weighted aggregate: the sum
over the six methods of weight times score. -/
def spec_weighted_sum (sc : ScoreSet) : ℚ :=
  Config.weight_motion * sc.motion +
    Config.weight_texture * sc.texture +
    Config.weight_consistency * sc.consistency +
    Config.weight_edge_density * sc.edge_density +
    Config.weight_color_variance * sc.color_variance +
    Config.weight_pattern_detection * sc.pattern_detection

/-! ## Theorems -/

set_option maxRecDepth 100000

/-- **C7.** Calling `reset` twice in a row yields exactly the same session
state as calling it once: `reset` assigns every detector and
attack-detector field, buffer and history its initial value, so it is
idempotent. -/
theorem C7_reset_idempotent : ∀ s : LivenessState, reset (reset s) = reset s :=
  fun _ => rfl

/-- **C9.** Whenever fewer than `CONSISTENCY_WINDOW` (5) grayscale frames
are buffered, the consistency extractor returns the neutral default 0.5. -/
theorem C9_consistency_neutral_default (gb : List GrayFrame)
    (h : gb.length < Config.CONSISTENCY_WINDOW) :
    check_consistency gb = 0.5 := by
  unfold check_consistency
  rw [if_pos h]

/-- Witness for C9 at a two-frame buffer. -/
theorem C9_consistency_neutral_default_witness :
    ([[10, 20], [30, 40]] : List GrayFrame).length < Config.CONSISTENCY_WINDOW ∧
      check_consistency [[10, 20], [30, 40]] = 0.5 :=
  ⟨by with_unfolding_all decide,
   C9_consistency_neutral_default [[10, 20], [30, 40]]
     (by with_unfolding_all decide)⟩

/-- **C8.** For every grayscale buffer with at least `CONSISTENCY_WINDOW`
(5) frames, if the maximum single frame-to-frame brightness difference over
the last five frames exceeds `FRAME_JUMP_THRESHOLD` (40), the consistency
score is the hard floor 0.2, regardless of the average difference. -/
theorem C8_jump_forces_low_consistency (gb : List GrayFrame)
    (h1 : Config.CONSISTENCY_WINDOW ≤ gb.length)
    (h2 : Config.FRAME_JUMP_THRESHOLD <
      listMaxD (consecDiffs
        ((gb.drop (gb.length - Config.CONSISTENCY_WINDOW)).map brightnessOf))) :
    check_consistency gb = 0.2 := by
  unfold check_consistency
  rw [if_neg (Nat.not_lt.mpr h1), if_pos h2]

/-- Witness for C8: one-pixel frames with a single 100-unit brightness
jump. -/
theorem C8_jump_forces_low_consistency_witness :
    Config.CONSISTENCY_WINDOW ≤
        ([[0], [0], [0], [100], [0]] : List GrayFrame).length ∧
      check_consistency [[0], [0], [0], [100], [0]] = 0.2 :=
  ⟨by with_unfolding_all decide,
   C8_jump_forces_low_consistency [[0], [0], [0], [100], [0]]
     (by with_unfolding_all decide) (by with_unfolding_all decide)⟩

/-- **C5.** For every `ScoreSet` with all six entries in `[0, 1]`, the
overall score of the decision procedure equals the weighted sum of the six
scores, and the six fixed weights sum to 1.0 within the ±0.01 tolerance
enforced by `validate_config`. -/
theorem C5_overall_weighted_sum (sc : ScoreSet)
    (hm0 : 0 ≤ sc.motion) (hm1 : sc.motion ≤ 1)
    (ht0 : 0 ≤ sc.texture) (ht1 : sc.texture ≤ 1)
    (hc0 : 0 ≤ sc.consistency) (hc1 : sc.consistency ≤ 1)
    (he0 : 0 ≤ sc.edge_density) (he1 : sc.edge_density ≤ 1)
    (hv0 : 0 ≤ sc.color_variance) (hv1 : sc.color_variance ≤ 1)
    (hp0 : 0 ≤ sc.pattern_detection) (hp1 : sc.pattern_detection ≤ 1) :
    calculate_overall_score sc = spec_weighted_sum sc ∧
      (99 : ℚ) / 100 ≤ Config.weightsSum ∧ Config.weightsSum ≤ 101 / 100 := by
  refine ⟨?_, by norm_num [Config.weightsSum, Config.weight_motion,
    Config.weight_texture, Config.weight_consistency,
    Config.weight_edge_density, Config.weight_color_variance,
    Config.weight_pattern_detection], by norm_num [Config.weightsSum,
    Config.weight_motion, Config.weight_texture, Config.weight_consistency,
    Config.weight_edge_density, Config.weight_color_variance,
    Config.weight_pattern_detection]⟩
  unfold calculate_overall_score spec_weighted_sum clamp01
  unfold Config.weight_motion Config.weight_texture Config.weight_consistency
    Config.weight_edge_density Config.weight_color_variance
    Config.weight_pattern_detection
  rw [max_eq_right (by nlinarith), min_eq_right (by nlinarith)]
  ring

/-- Witness for C5 at the all-0.5 score set. -/
theorem C5_overall_weighted_sum_witness :
    calculate_overall_score
        { motion := 0.5, texture := 0.5, consistency := 0.5,
          edge_density := 0.5, color_variance := 0.5,
          pattern_detection := 0.5 } =
      spec_weighted_sum
        { motion := 0.5, texture := 0.5, consistency := 0.5,
          edge_density := 0.5, color_variance := 0.5,
          pattern_detection := 0.5 } ∧
      (99 : ℚ) / 100 ≤ Config.weightsSum ∧ Config.weightsSum ≤ 101 / 100 :=
  C5_overall_weighted_sum
    { motion := 0.5, texture := 0.5, consistency := 0.5, edge_density := 0.5,
      color_variance := 0.5, pattern_detection := 0.5 }
    (by norm_num) (by norm_num) (by norm_num) (by norm_num) (by norm_num)
    (by norm_num) (by norm_num) (by norm_num) (by norm_num) (by norm_num)
    (by norm_num) (by norm_num)

/-- **C6.** If analysis has started but no decision has been reached, a
call with `finger_detected = false` performs a full reset (every field back
to its initial value) and returns status WAITING with
`frames_analyzed = 0`; in particular the session does not reach a decision
on that call. -/
theorem C6_finger_lost_resets (s : LivenessState) (f : Frame)
    (h1 : s.analysis_started = true) (h2 : s.final_decision_made = false) :
    (analyze_frame s f false).2 = initState ∧
      (analyze_frame s f false).1.status = Status.WAITING ∧
      (analyze_frame s f false).1.frames_analyzed = 0 ∧
      (analyze_frame s f false).2.final_decision_made = false := by
  simp [analyze_frame, h1, h2, reset, create_result, initState]

/-- Witness for C6 at the state reached after five analyzed frames. -/
theorem C6_finger_lost_resets_witness :
    (cexSession 5).analysis_started = true ∧
      (cexSession 5).final_decision_made = false ∧
      (analyze_frame (cexSession 5) cexFrame false).2 = initState ∧
      (analyze_frame (cexSession 5) cexFrame false).1.status = Status.WAITING ∧
      (analyze_frame (cexSession 5) cexFrame false).1.frames_analyzed = 0 :=
  ⟨by with_unfolding_all decide, by with_unfolding_all decide,
   (C6_finger_lost_resets (cexSession 5) cexFrame
      (by with_unfolding_all decide) (by with_unfolding_all decide)).1,
   (C6_finger_lost_resets (cexSession 5) cexFrame
      (by with_unfolding_all decide) (by with_unfolding_all decide)).2.1,
   (C6_finger_lost_resets (cexSession 5) cexFrame
      (by with_unfolding_all decide) (by with_unfolding_all decide)).2.2.1⟩

/-- **C3 (counterexample).** The claim that after the terminal decision all
six extractor scores are recomputed from the new frame is false: after the
decision at frame 15, a call on a frame whose texture score would be 0.2
still returns the stored texture score 0.6 — the returned `ScoreSet` does
not reflect the current frame. -/
theorem C3_counterexample :
    (cexSession 15).final_decision_made = true ∧
      (analyze_frame (cexSession 15) cexFrame2 true).1.scores.texture ≠
        analyze_texture cexFrame2 := by
  with_unfolding_all decide

/-- **C3 (amended).** Once the terminal decision has been made, a call to
`analyze_frame` returns immediately: the detector state (including the
`ScoreSet` and attack state) is completely unchanged, and the returned
scores are the ones stored at decision time, not recomputed from the new
frame. -/
theorem C3_no_recompute_after_decision (s : LivenessState) (f : Frame)
    (b : Bool) (h : s.final_decision_made = true) :
    (analyze_frame s f b).2 = s ∧ (analyze_frame s f b).1.scores = s.scores := by
  simp [analyze_frame, h, create_result]

/-- Witness for the amended C3 at the decided state of the concrete
session. -/
theorem C3_no_recompute_after_decision_witness :
    (analyze_frame (cexSession 15) cexFrame2 true).2 = cexSession 15 ∧
      (analyze_frame (cexSession 15) cexFrame2 true).1.scores =
        (cexSession 15).scores :=
  C3_no_recompute_after_decision (cexSession 15) cexFrame2 true
    (by with_unfolding_all decide)

/-- **C4.** Once the session is in the terminal state, every call to
`analyze_frame` (for arbitrary frame contents and finger flags) leaves the
state unchanged and returns the stored `is_live`, `confidence` and primary
attack type, so consecutive calls return identical values. -/
theorem C4_terminal_immutable (s : LivenessState) (f1 f2 : Frame)
    (b1 b2 : Bool) (h : s.final_decision_made = true) :
    (analyze_frame s f1 b1).2 = s ∧
      (analyze_frame s f1 b1).1.is_live = s.is_live ∧
      (analyze_frame s f1 b1).1.confidence = s.confidence ∧
      (analyze_frame s f1 b1).1.attack_type = get_attack_type s ∧
      (analyze_frame (analyze_frame s f1 b1).2 f2 b2).1.is_live =
        (analyze_frame s f1 b1).1.is_live ∧
      (analyze_frame (analyze_frame s f1 b1).2 f2 b2).1.confidence =
        (analyze_frame s f1 b1).1.confidence ∧
      (analyze_frame (analyze_frame s f1 b1).2 f2 b2).1.attack_type =
        (analyze_frame s f1 b1).1.attack_type := by
  simp [analyze_frame, h, create_result]

/-- Witness for C4: after the decision of the concrete session, a further
call on a different frame (and one with the finger absent) changes
nothing. -/
theorem C4_terminal_immutable_witness :
    (analyze_frame (cexSession 15) cexFrame2 true).2 = cexSession 15 ∧
      (analyze_frame (cexSession 15) cexFrame2 true).1.is_live =
        (cexSession 15).is_live ∧
      (analyze_frame (cexSession 15) cexFrame2 true).1.confidence =
        (cexSession 15).confidence ∧
      (analyze_frame (cexSession 15) cexFrame2 true).1.attack_type =
        get_attack_type (cexSession 15) ∧
      (analyze_frame (analyze_frame (cexSession 15) cexFrame2 true).2
          cexFrame false).1.is_live =
        (analyze_frame (cexSession 15) cexFrame2 true).1.is_live ∧
      (analyze_frame (analyze_frame (cexSession 15) cexFrame2 true).2
          cexFrame false).1.confidence =
        (analyze_frame (cexSession 15) cexFrame2 true).1.confidence ∧
      (analyze_frame (analyze_frame (cexSession 15) cexFrame2 true).2
          cexFrame false).1.attack_type =
        (analyze_frame (cexSession 15) cexFrame2 true).1.attack_type :=
  C4_terminal_immutable (cexSession 15) cexFrame2 cexFrame true false
    (by with_unfolding_all decide)

/-- **C1 (counterexample).** In the concrete session, the decision fires at
frame 15 with three of the five comprehensive screen indicators triggered,
and the call indeed returns SPOOF with confidence 0.3 — but its
`attack_type` is `none`, not `screen_attack`: the returned attack label is
taken from the attack summary computed before the screen override forces
the flag, and no classifier reached confidence 0.5. -/
theorem C1_counterexample :
    (cexSession 14).final_decision_made = false ∧
      (cexSession 14).frames_analyzed + 1 = Config.MIN_FRAMES_FOR_DECISION ∧
      3 ≤ screenIndicatorCount cexFrame (analyze_color_variance cexFrame) ∧
      (analyze_frame (cexSession 14) cexFrame true).1.status = Status.SPOOF ∧
      (analyze_frame (cexSession 14) cexFrame true).1.confidence = 0.3 ∧
      (analyze_frame (cexSession 14) cexFrame true).2.attack.screen_attack =
        true ∧
      (analyze_frame (cexSession 14) cexFrame true).1.attack_type ≠
        some AttackName.screen_attack := by
  with_unfolding_all decide

/-- **C1 (amended).** When the decision fires and at least 3 of the 5
comprehensive screen indicators trigger on the decision frame,
`analyze_frame` returns status SPOOF with confidence 0.3 regardless of the
weighted overall score, and forces the `screen_attack` flag in the stored
attack state — but the `attack_type` of the returned result is the primary
attack of the classifier state computed before the override (`none`
whenever no classifier reached confidence 0.5), not necessarily
`screen_attack`. -/
theorem C1_screen_override (s : LivenessState) (f : Frame)
    (h1 : s.final_decision_made = false) (h2 : s.analysis_started = true)
    (h3 : Config.MIN_FRAMES_FOR_DECISION ≤ s.frames_analyzed + 1)
    (h4 : 3 ≤ (pushBounded Config.MOTION_FRAMES f s.frame_buffer).length)
    (h5 : comprehensive_screen_check f (analyze_color_variance f) = true) :
    (analyze_frame s f true).1.status = Status.SPOOF ∧
      (analyze_frame s f true).1.confidence = 0.3 ∧
      (analyze_frame s f true).2.attack.screen_attack = true ∧
      (analyze_frame s f true).1.attack_type =
        (get_primary_attack (runAttackDetectors s.attack
          (scoresOf (pushBounded Config.MOTION_FRAMES f.gray s.gray_buffer) f)
          f)).1 := by
  have hsc : (scoresOf (pushBounded Config.MOTION_FRAMES f.gray s.gray_buffer)
      f).color_variance = analyze_color_variance f := rfl
  simp [analyze_frame, analyzeFrameActive, h1, h2, Nat.not_lt.mpr h4,
    Nat.not_lt.mpr h3, h3, hsc, h5, create_result]

/-- Witness for the amended C1 at the decision frame of the concrete
session. -/
theorem C1_screen_override_witness :
    (analyze_frame (cexSession 14) cexFrame true).1.status = Status.SPOOF ∧
      (analyze_frame (cexSession 14) cexFrame true).1.confidence = 0.3 ∧
      (analyze_frame (cexSession 14) cexFrame true).2.attack.screen_attack =
        true ∧
      (analyze_frame (cexSession 14) cexFrame true).1.attack_type =
        (get_primary_attack (runAttackDetectors (cexSession 14).attack
          (scoresOf (pushBounded Config.MOTION_FRAMES cexFrame.gray
            (cexSession 14).gray_buffer) cexFrame) cexFrame)).1 :=
  C1_screen_override (cexSession 14) cexFrame (by with_unfolding_all decide)
    (by with_unfolding_all decide) (by with_unfolding_all decide)
    (by with_unfolding_all decide) (by with_unfolding_all decide)

/-- The claim's reading of the motion extractor: the average, over up to
the 4 **most recent** consecutive pairs of grayscale frames in the buffer,
of the count of pixels whose intensity differs by more than
`MOTION_PIXEL_THRESHOLD`, three-zone normalized. -/
def spec_motion_recent_pairs (gb : List GrayFrame) : ℚ :=
  if gb.length < 2 then 0
  else
    let recent := gb.drop (gb.length - min gb.length 5)
    let pair_counts := (recent.zip recent.tail).map
      (fun p => ((countMotionPixels p.1 p.2 : ℕ) : ℚ))
    clamp01 (normalizeMotion (listMean pair_counts))

/-- **C2 (counterexample).** The motion score is not computed from the most
recent pairs: on a buffer of six frames where the five oldest frames are
identical and only the newest frame changes, the code's score is 0 (it
indexes pairs among the five oldest frames), while the claimed
most-recent-pairs computation gives a nonzero score. -/
theorem C2_counterexample :
    detect_motion
        [[0, 0, 0, 0], [0, 0, 0, 0], [0, 0, 0, 0], [0, 0, 0, 0],
          [0, 0, 0, 0], [255, 255, 255, 255]] ≠
      spec_motion_recent_pairs
        [[0, 0, 0, 0], [0, 0, 0, 0], [0, 0, 0, 0], [0, 0, 0, 0],
          [0, 0, 0, 0], [255, 255, 255, 255]] := by
  with_unfolding_all decide

/-- **C2 (amended).** The motion score is computed from the average, over
up to 4 consecutive pairs among the **oldest** `min(length, 5)` buffered
grayscale frames (the first five entries of the buffer), of the count of
pixels whose grayscale intensity differs by more than
`MOTION_PIXEL_THRESHOLD` (15), then three-zone normalized — equivalently,
the code's score on any buffer equals the pairwise computation applied to
the buffer's first five frames. -/
theorem C2_motion_uses_oldest_window (gb : List GrayFrame) :
    detect_motion gb = spec_motion_recent_pairs (gb.take 5) := by
  rcases gb with _ | ⟨a, _ | ⟨b, _ | ⟨c, _ | ⟨d, _ | ⟨e, rest⟩⟩⟩⟩⟩
  · rfl
  · rfl
  · rfl
  · rfl
  · rfl
  · have hmin : min (a :: b :: c :: d :: e :: rest).length 5 = 5 := by
      simp [List.length_cons]
    have htake : (a :: b :: c :: d :: e :: rest).take 5 = [a, b, c, d, e] := rfl
    rw [htake]
    unfold detect_motion spec_motion_recent_pairs avgMotion motionValues
    rw [hmin]
    rfl

/-- Detector states reachable from a fresh detector through `analyze_frame`
calls and explicit resets. -/
inductive Reachable : LivenessState → Prop where
  | init : Reachable initState
  | reset_cmd (s : LivenessState) : Reachable s → Reachable (reset s)
  | step (s : LivenessState) (f : Frame) (b : Bool) :
      Reachable s → Reachable (analyze_frame s f b).2

/-- Case split on the active analysis path: either the call is still
analyzing — then the returned and stored confidence are unchanged and no
decision is recorded — or the decision was just made and the status is
LIVE or SPOOF. -/
theorem analyzeFrameActive_cases (s : LivenessState) (f : Frame) :
    ((analyzeFrameActive s f).1.status = Status.ANALYZING ∧
      (analyzeFrameActive s f).1.confidence = s.confidence ∧
      (analyzeFrameActive s f).2.confidence = s.confidence ∧
      (analyzeFrameActive s f).2.final_decision_made = s.final_decision_made) ∨
    ((analyzeFrameActive s f).2.final_decision_made = true ∧
      ((analyzeFrameActive s f).1.status = Status.LIVE ∨
        (analyzeFrameActive s f).1.status = Status.SPOOF)) := by
  simp only [analyzeFrameActive]
  split_ifs <;> simp [create_result]

/-- One `analyze_frame` call preserves the invariant that the stored
confidence is 0 while no terminal decision has been made. -/
theorem step_conf_inv (s : LivenessState) (f : Frame) (b : Bool)
    (ih : s.final_decision_made = false → s.confidence = 0) :
    (analyze_frame s f b).2.final_decision_made = false →
      (analyze_frame s f b).2.confidence = 0 := by
  by_cases hf : s.final_decision_made = true
  · simp [analyze_frame, hf]
  · have hf' : s.final_decision_made = false := by
      cases hq : s.final_decision_made
      · rfl
      · exact absurd hq hf
    cases b
    · simp only [analyze_frame, hf']
      simp only [Bool.false_eq_true, if_false, Bool.not_false, if_true,
        Bool.and_true]
      split_ifs with h
      · intro _
        rfl
      · exact fun _ => ih hf'
    · simp only [analyze_frame, hf']
      simp only [Bool.false_eq_true, if_false, Bool.not_true, if_true]
      rcases analyzeFrameActive_cases s f with ⟨_, _, hc, hfd⟩ | ⟨hfd, _⟩
      · rw [hc, hfd]
        exact fun h => ih h
      · rw [hfd]
        intro h
        cases h

/-- Along every execution from a fresh detector, the stored confidence is 0
until the terminal decision is made. -/
theorem reachable_conf_inv (s : LivenessState) (hr : Reachable s) :
    s.final_decision_made = false → s.confidence = 0 := by
  induction hr with
  | init => exact fun _ => rfl
  | reset_cmd s' _ _ => exact fun _ => rfl
  | step s' f b _ ih => exact step_conf_inv s' f b ih

/-- If the stored confidence is 0 while undecided, then any call whose
result is WAITING or ANALYZING reports confidence 0. -/
theorem result_conf_zero (s : LivenessState) (f : Frame) (b : Bool)
    (hinv : s.final_decision_made = false → s.confidence = 0)
    (h : (analyze_frame s f b).1.status = Status.WAITING ∨
      (analyze_frame s f b).1.status = Status.ANALYZING) :
    (analyze_frame s f b).1.confidence = 0 := by
  by_cases hf : s.final_decision_made = true
  · cases hl : s.is_live <;> simp [analyze_frame, hf, create_result, hl] at h
  · have hf' : s.final_decision_made = false := by
      cases hq : s.final_decision_made
      · rfl
      · exact absurd hq hf
    cases b
    · simp only [analyze_frame, hf']
      simp only [Bool.false_eq_true, if_false, Bool.not_false, if_true,
        Bool.and_true]
      split_ifs with hc
      · rfl
      · exact hinv hf'
    · simp only [analyze_frame, hf'] at h ⊢
      simp only [Bool.false_eq_true, if_false, Bool.not_true, if_true] at h ⊢
      rcases analyzeFrameActive_cases s f with ⟨_, hc, _, _⟩ | ⟨_, hlv⟩
      · exact hc.trans (hinv hf')
      · rcases hlv with h1 | h1 <;> rcases h with h2 | h2 <;>
          rw [h1] at h2 <;> exact Status.noConfusion h2

/-- **C10.** Starting from a freshly constructed (or reset) session, every
`AnalysisResult` returned before the terminal decision — status WAITING or
ANALYZING — carries confidence 0.0; a nonzero confidence can only be
assigned at decision time. -/
theorem C10_confidence_zero_before_decision (s : LivenessState)
    (hr : Reachable s) (f : Frame) (b : Bool)
    (h : (analyze_frame s f b).1.status = Status.WAITING ∨
      (analyze_frame s f b).1.status = Status.ANALYZING) :
    (analyze_frame s f b).1.confidence = 0 :=
  result_conf_zero s f b (reachable_conf_inv s hr) h

/-- Witness for C10 at the first analyzed frame of a fresh session. -/
theorem C10_confidence_zero_before_decision_witness :
    (analyze_frame initState cexFrame true).1.status = Status.ANALYZING ∧
      (analyze_frame initState cexFrame true).1.confidence = 0 :=
  ⟨by with_unfolding_all decide,
   C10_confidence_zero_before_decision initState Reachable.init cexFrame true
     (Or.inr (by with_unfolding_all decide))⟩

end AllTracks
